import Mathlib

/-!
Shallow embedding of the fsstratify usage-model engine: the operation /
playbook codec (src/fsstratify/operations.py, src/fsstratify/utils.py), the
playbook replay model (src/fsstratify/usagemodels/playbook.py), the KAD and
probabilistic generative models (src/fsstratify/usagemodels/kad.py,
src/fsstratify/usagemodels/probabilistic.py), the virtual-filesystem path
generator (src/fsstratify/filesystems.py) and the data generators
(src/fsstratify/datagenerators.py), together with theorems settling the
spec claims about them.

Conventions: Python ints are `Int` (or `Nat` where the source value is a
digit string), fallible code returns `Except Err`, randomness is passed in
as explicit oracle arguments, and `while` loops whose bound is not
structural take an explicit fuel argument.
-/

namespace Fsstratify

/-- Exception classes of src/fsstratify/errors.py, plus the Python builtin
errors that the code under scrutiny can raise (`ValueError` from
constructors and parsers, `TypeError`/`IndexError` style failures are
mapped to `value` as well). -/
inductive Err where
  | configuration (msg : String)
  | simulation (msg : String)
  | playbook (msg : String)
  | value (msg : String)
  deriving Repr, DecidableEq

/-- Split of a character list at every separator character, keeping empty
pieces, exactly like Python `str.split(sep)` for a one-character separator.
(Defined on character lists, as are the helpers below, so that concrete
instances evaluate inside the kernel.) -/
def splitChars (p : Char → Bool) (cs : List Char) : List (List Char) :=
  cs.foldr
    (fun c acc =>
      if p c then [] :: acc
      else
        match acc with
        | h :: t => (c :: h) :: t
        | [] => [[c]])
    [[]]

/-- Python `s.split(sep)` for a one-character separator. -/
def splitOnChar (sep : Char) (s : String) : List String :=
  (splitChars (fun c => c = sep) s.data).map String.mk

/-- Python `s.startswith(pre)`. -/
def strStartsWith (s pre : String) : Bool :=
  pre.data.isPrefixOf s.data

/-- Python `s.strip()` with no argument: remove leading and trailing
whitespace. -/
def strTrim (s : String) : String :=
  String.mk (((s.data.dropWhile Char.isWhitespace).reverse.dropWhile
    Char.isWhitespace).reverse)

/-- Python `s.lower()`. -/
def strToLower (s : String) : String :=
  String.mk (s.data.map Char.toLower)

/-- Longest prefix of characters satisfying the predicate. -/
def strTakeWhile (p : Char → Bool) (s : String) : String :=
  String.mk (s.data.takeWhile p)

/-- Remainder after `strTakeWhile`. -/
def strDropWhile (p : Char → Bool) (s : String) : String :=
  String.mk (s.data.dropWhile p)

/-- Test of any character satisfying the predicate. -/
def strAny (p : Char → Bool) (s : String) : Bool :=
  s.data.any p

/-- Whitespace tokenization: Python `str.split()` with no argument splits on
runs of whitespace and drops empty tokens. -/
def splitWs (s : String) : List String :=
  ((splitChars Char.isWhitespace s.data).map String.mk).filter (fun t => t ≠ "")

/-- Numeric value of a digit list. -/
def digitsToNat (cs : List Char) : Nat :=
  cs.foldl (fun a c => a * 10 + (c.toNat - 48)) 0

/-- Model of `pathlib.Path`: a flag for absoluteness plus the list of path
components. -/
structure PyPath where
  absolute : Bool
  comps : List String
  deriving Repr, DecidableEq

/-- Python `Path(s)` applied to one whitespace-free token: absolute iff the
token starts with a slash; components are the nonempty slash-separated
segments. -/
def pathOfString (s : String) : PyPath :=
  { absolute := strStartsWith s "/"
    comps := (splitOnChar '/' s).filter (fun t => t ≠ "") }

/-- Rendering of a `PyPath` by `str()` / f-string interpolation. -/
def pathToString (p : PyPath) : String :=
  if p.absolute then "/" ++ String.intercalate "/" p.comps
  else String.intercalate "/" p.comps

/-- Operation._normalize_simulation_path: absolute paths are kept, relative
ones are re-rooted at the simulated filesystem root. -/
def normalizeSimulationPath (p : PyPath) : PyPath :=
  if p.absolute then p else { absolute := true, comps := p.comps }

/-- Unit table of utils.parse_size_definition (suffix to byte factor,
after canonicalizing short suffixes). -/
def sizeSuffixFactor (unit : String) : Option Nat :=
  if unit = "k" ∨ unit = "kB" then some 1000
  else if unit = "M" ∨ unit = "MB" then some (1000 ^ 2)
  else if unit = "G" ∨ unit = "GB" then some (1000 ^ 3)
  else if unit = "T" ∨ unit = "TB" then some (1000 ^ 4)
  else if unit = "Ki" ∨ unit = "KiB" then some 1024
  else if unit = "Mi" ∨ unit = "MiB" then some (1024 ^ 2)
  else if unit = "Gi" ∨ unit = "GiB" then some (1024 ^ 3)
  else if unit = "Ti" ∨ unit = "TiB" then some (1024 ^ 4)
  else none

/-- utils.parse_size_definition: `re.split` on the digit run accepts exactly
a string of the shape digits-then-unit (one digit run, nothing before it);
the unit is stripped and looked up, an empty unit means plain bytes. -/
def parseSizeDefinition (s : String) : Except Err Nat :=
  let t := strTrim s
  let digits := strTakeWhile Char.isDigit t
  let rest := strDropWhile Char.isDigit t
  if digits = "" ∨ strAny Char.isDigit rest then
    .error (.value "Invalid size definition")
  else
    let value := digitsToNat digits.data
    let unit := strTrim rest
    if unit = "" then .ok value
    else
      match sizeSuffixFactor unit with
      | some factor => .ok (value * factor)
      | none => .error (.value "Invalid unit for size definition")

/-- utils.parse_duration_string: same digit-run grammar with second, minute
and hour suffixes. -/
def parseDurationString (s : String) : Except Err Nat :=
  let t := strTrim s
  let digits := strTakeWhile Char.isDigit t
  let rest := strDropWhile Char.isDigit t
  if digits = "" ∨ strAny Char.isDigit rest then
    .error (.value "Invalid size definition")
  else
    let value := digitsToNat digits.data
    let unit := strTrim rest
    if unit = "" then .ok value
    else if unit = "s" then .ok value
    else if unit = "min" then .ok (value * 60)
    else if unit = "h" then .ok (value * 3600)
    else .error (.value "Invalid unit for size definition")

/-- utils.parse_boolean_string. -/
def parseBooleanString (s : String) : Except Err Bool :=
  let l := strToLower s
  if l = "true" ∨ l = "yes" ∨ l = "y" then .ok true
  else if l = "false" ∨ l = "no" ∨ l = "n" then .ok false
  else .error (.value "neither a value for True nor for False")

/-- Python `str(bool)` rendering used by the f-strings in
as_playbook_line. -/
def pyBoolString (b : Bool) : String := if b then "True" else "False"

/-- Data-generator configuration held by a write or extend operation:
`random` is the RandomDataGenerator default, `staticString` is the
StaticStringGenerator functools binding built by Extend.from_playbook_line
from a `pattern=` parameter (arguments: the pattern and its length), and
`patternGen` is the PatternGenerator binding built by
Write.from_playbook_line from a `data_generator=pattern(...)` parameter
(text, filename, width, chunk-counter flag, and the original parameter
string which the serializer re-emits as `pattern_string`). -/
inductive DataGen where
  | random
  | staticString (s : String) (len : Nat)
  | patternGen (text : String) (fname : PyPath) (width : Nat)
      (includeCounter : Bool) (patternString : String)
  deriving Repr, DecidableEq

/-- Operation variants of src/fsstratify/operations.py with the fields their
constructors store. -/
inductive Op where
  | copy (src dst : PyPath)
  | move (src dst : PyPath)
  | remove (path : PyPath)
  | mkdir (path : PyPath)
  | shrink (path : PyPath) (shrinkSize : Int)
  | write (path : PyPath) (size : Int) (chunked : Bool) (chunkSize : Int)
      (dg : DataGen)
  | extend (path : PyPath) (extendSize : Int) (chunked : Bool) (chunkSize : Int)
      (dg : DataGen)
  | sleep (duration : Int)
  | time (timeStr : String)
  deriving Repr, DecidableEq

/-- Copy.__init__ (paths are normalized, nothing can fail). -/
def mkCopy (src dst : PyPath) : Op :=
  .copy (normalizeSimulationPath src) (normalizeSimulationPath dst)

/-- Move.__init__. -/
def mkMove (src dst : PyPath) : Op :=
  .move (normalizeSimulationPath src) (normalizeSimulationPath dst)

/-- Remove.__init__. -/
def mkRemove (path : PyPath) : Op := .remove (normalizeSimulationPath path)

/-- Mkdir.__init__. -/
def mkMkdir (path : PyPath) : Op := .mkdir (normalizeSimulationPath path)

/-- Shrink.__init__: a shrink size below one raises a Python ValueError. -/
def mkShrink (path : PyPath) (shrinkSize : Int) : Except Err Op :=
  if shrinkSize < 1 then .error (.value "shrink_size has to be >= 1.")
  else .ok (.shrink (normalizeSimulationPath path) shrinkSize)

/-- FileWriteOperation.__init__ combined with Write.__init__: non-positive
write sizes and chunk sizes raise SimulationError. -/
def mkWrite (path : PyPath) (size : Int) (chunked : Bool) (chunkSize : Int)
    (dg : DataGen) : Except Err Op :=
  if size ≤ 0 then
    .error (.simulation "operation cannot be performed with write size < 0")
  else if chunkSize ≤ 0 then
    .error (.simulation "Write operation cannot be performed with chunk_size <= 0.")
  else .ok (.write (normalizeSimulationPath path) size chunked chunkSize dg)

/-- FileWriteOperation.__init__ combined with Extend.__init__. -/
def mkExtend (path : PyPath) (extendSize : Int) (chunked : Bool)
    (chunkSize : Int) (dg : DataGen) : Except Err Op :=
  if extendSize ≤ 0 then
    .error (.simulation "operation cannot be performed with write size < 0")
  else if chunkSize ≤ 0 then
    .error (.simulation "Extend operation cannot be performed with chunk_size <= 0.")
  else .ok (.extend (normalizeSimulationPath path) extendSize chunked chunkSize dg)

/-- Serialization of the optional data-generator tail of
Write.as_playbook_line and Extend.as_playbook_line: exactly when the
operation holds a PatternGenerator, the line gains a
`data_generator=<pattern_string>` token. (In the checked-in sources this
attribute access even crashes, because datagenerators.PatternGenerator no
longer has a `pattern_string` attribute; the token below is what the
f-string is written to produce.) -/
def dgTokens : DataGen → List String
  | .patternGen _ _ _ _ ps => ["data_generator=" ++ ps]
  | _ => []

/-- Token-level as_playbook_line of every operation kind (the source joins
these tokens with single spaces). -/
def asPlaybookTokens : Op → List String
  | .copy src dst => ["cp", pathToString src, pathToString dst]
  | .move src dst => ["mv", pathToString src, pathToString dst]
  | .remove p => ["rm", pathToString p]
  | .mkdir p => ["mkdir", pathToString p]
  | .shrink p n => ["shrink", pathToString p, "shrink_size=" ++ toString n]
  | .write p sz ch cs dg =>
      ["write", pathToString p, "size=" ++ toString sz,
        "chunked=" ++ pyBoolString ch, "chunk_size=" ++ toString cs]
        ++ dgTokens dg
  | .extend p sz ch cs dg =>
      ["extend", pathToString p, "extend_size=" ++ toString sz,
        "chunked=" ++ pyBoolString ch, "chunk_size=" ++ toString cs]
        ++ dgTokens dg
  | .sleep d => ["sleep", toString d]
  | .time t => ["time", t]

/-- Python `param.split("=")[1]`: the text between the first and the second
equals sign (everything after the first one when there is no second). -/
def paramValue (param : String) : String := (splitOnChar '=' param).getD 1 ""

/-- Copy.from_playbook_line after tokenization: exactly two path
arguments. -/
def copyFromTokens (toks : List String) : Except Err Op :=
  match (toks.drop 1).map pathOfString with
  | [src, dst] => .ok (mkCopy src dst)
  | _ => .error (.playbook "Invalid playbook line")

/-- Move.from_playbook_line. -/
def moveFromTokens (toks : List String) : Except Err Op :=
  match (toks.drop 1).map pathOfString with
  | [src, dst] => .ok (mkMove src dst)
  | _ => .error (.playbook "Invalid playbook line")

/-- Remove.from_playbook_line: exactly one path argument. -/
def removeFromTokens (toks : List String) : Except Err Op :=
  match (toks.drop 1).map pathOfString with
  | [p] => .ok (mkRemove p)
  | _ => .error (.playbook "Invalid playbook line")

/-- Mkdir.from_playbook_line. -/
def mkdirFromTokens (toks : List String) : Except Err Op :=
  match (toks.drop 1).map pathOfString with
  | [p] => .ok (mkMkdir p)
  | _ => .error (.playbook "Invalid playbook line")

/-- Parameter loop of Shrink.from_playbook_line: each keyword parameter must
be a positive `shrink_size=`; parse failures become PlaybookErrors, unknown
keys are rejected. -/
def shrinkParams : List String → Option Nat → Except Err (Option Nat)
  | [], acc => .ok acc
  | param :: rest, acc =>
    if strStartsWith param "shrink_size=" then
      match parseSizeDefinition (paramValue param) with
      | .error _ => .error (.playbook "Invalid parameter")
      | .ok v =>
        if (v : Int) ≤ 0 then .error (.playbook "shrink_size has to be > 0.")
        else shrinkParams rest (some v)
    else .error (.playbook "Unknown parameter")

/-- Shrink.from_playbook_line: a path plus at least one parameter; the
constructor call at the end needs the `shrink_size` keyword (a missing one
would be a Python TypeError). -/
def shrinkFromTokens (toks : List String) : Except Err Op :=
  match toks.drop 1 with
  | p0 :: rest =>
    if (p0 :: rest).length < 2 then .error (.playbook "Not enough arguments")
    else
      match shrinkParams rest none with
      | .error e => .error e
      | .ok none => .error (.value "missing argument shrink_size")
      | .ok (some v) => mkShrink (pathOfString p0) (v : Int)
  | [] => .error (.playbook "Not enough arguments")

/-- Accumulated keyword arguments of Write.from_playbook_line and
Extend.from_playbook_line before the final constructor call. -/
structure FileWriteArgs where
  size : Option Nat := none
  chunked : Option Bool := none
  chunkSize : Option Nat := none
  dg : Option DataGen := none
  deriving Repr, DecidableEq

/-- Parameter loop of Extend.from_playbook_line: keys `chunked=`,
`chunk_size=`, `extend_size=` and `pattern=` (building a
StaticStringGenerator binding); anything else is an unknown parameter. -/
def extendParams : List String → FileWriteArgs → Except Err FileWriteArgs
  | [], acc => .ok acc
  | param :: rest, acc =>
    if strStartsWith param "chunked=" then
      match parseBooleanString (paramValue param) with
      | .error _ => .error (.playbook "Invalid parameter")
      | .ok b => extendParams rest { acc with chunked := some b }
    else if strStartsWith param "chunk_size=" then
      match parseSizeDefinition (paramValue param) with
      | .error _ => .error (.playbook "Invalid parameter")
      | .ok v =>
        if (v : Int) ≤ 0 then .error (.playbook "chunk_size has to be > 0.")
        else extendParams rest { acc with chunkSize := some v }
    else if strStartsWith param "extend_size=" then
      match parseSizeDefinition (paramValue param) with
      | .error _ => .error (.playbook "Invalid parameter")
      | .ok v =>
        if (v : Int) ≤ 0 then .error (.playbook "extend_size has to be > 0.")
        else extendParams rest { acc with size := some v }
    else if strStartsWith param "pattern=" then
      let pat := paramValue param
      if pat = "" then
        .error (.playbook "Pattern string cannot be empty. One or more characters are required.")
      else extendParams rest { acc with dg := some (.staticString pat pat.length) }
    else .error (.playbook "Unknown parameter")

/-- Extend.from_playbook_line: path plus at least one keyword parameter;
missing `extend_size` fails the constructor call, the other keywords default
to the Extend.__init__ defaults (chunked False, chunk_size 512, random
data generator). -/
def extendFromTokens (toks : List String) : Except Err Op :=
  match toks.drop 1 with
  | p0 :: rest =>
    if (p0 :: rest).length < 2 then .error (.playbook "Not enough arguments")
    else
      match extendParams rest {} with
      | .error e => .error e
      | .ok args =>
        match args.size with
        | none => .error (.value "missing argument extend_size")
        | some sz =>
            mkExtend (pathOfString p0) (sz : Int) (args.chunked.getD false)
              ((args.chunkSize.getD 512 : Nat) : Int) (args.dg.getD .random)
  | [] => .error (.playbook "Not enough arguments")

/-- utils.parse_pattern_format_string: prefix-match of the regular
expression `pattern\((digits),\s*(.+?),\s*(.*?)\)`; the format group runs
non-greedily to the next comma, the text group to the next closing
parenthesis. -/
def parsePatternFormatString (s : String) : Option (Nat × String × String) :=
  if strStartsWith s "pattern(" then
    let rest := s.drop 8
    let digits := strTakeWhile Char.isDigit rest
    let afterDigits := rest.drop digits.length
    if digits = "" ∨ ¬ strStartsWith afterDigits "," then none
    else
      let remaining := strDropWhile Char.isWhitespace (afterDigits.drop 1)
      match splitOnChar ',' remaining with
      | fmt :: _ :: _ =>
        if fmt = "" then none
        else
          let afterFmt :=
            strDropWhile Char.isWhitespace (remaining.drop (fmt.length + 1))
          let text := strTakeWhile (fun c => c ≠ ')') afterFmt
          if strStartsWith (afterFmt.drop text.length) ")" then
            some (digitsToNat digits.data, fmt, text)
          else none
      | _ => none
  else none

/-- data_generator= branch of Write.from_playbook_line: an empty value is a
PlaybookError; a value starting with `pattern` is parsed with
parse_pattern_format_string (an unparseable one makes the tuple unpacking
raise) and yields a PatternGenerator binding whose text, filename and
counter flag are switched on by the `%s`, `%f` and `%c` specifiers; any
other value is silently ignored and the default generator stays. -/
def writeDataGeneratorParam (path : PyPath) (generatorType : String)
    (acc : FileWriteArgs) : Except Err FileWriteArgs :=
  if generatorType = "" then
    .error (.playbook "Pattern string cannot be empty. One or more characters are required.")
  else if strStartsWith generatorType "pattern" then
    match parsePatternFormatString generatorType with
    | none => .error (.value "cannot unpack non-iterable NoneType object")
    | some (number, fmt, text) =>
      let specTokens := splitOnChar '%' (fmt.drop 1)
      let pat := if specTokens.contains "s" then text else ""
      let fname := if specTokens.contains "f" then path else pathOfString ""
      let includeCounter := specTokens.contains "c"
      .ok { acc with
        dg := some (.patternGen pat fname number includeCounter generatorType) }
  else .ok acc

/-- Parameter loop of Write.from_playbook_line: keys `chunked=`,
`chunk_size=`, `size=` and `data_generator=`. -/
def writeParams (path : PyPath) :
    List String → FileWriteArgs → Except Err FileWriteArgs
  | [], acc => .ok acc
  | param :: rest, acc =>
    if strStartsWith param "chunked=" then
      match parseBooleanString (paramValue param) with
      | .error _ => .error (.playbook "Invalid parameter")
      | .ok b => writeParams path rest { acc with chunked := some b }
    else if strStartsWith param "chunk_size=" then
      match parseSizeDefinition (paramValue param) with
      | .error _ => .error (.playbook "Invalid parameter")
      | .ok v =>
        if (v : Int) ≤ 0 then .error (.playbook "chunk_size has to be > 0.")
        else writeParams path rest { acc with chunkSize := some v }
    else if strStartsWith param "size=" then
      match parseSizeDefinition (paramValue param) with
      | .error _ => .error (.playbook "Invalid parameter")
      | .ok v =>
        if (v : Int) ≤ 0 then .error (.playbook "size has to be > 0.")
        else writeParams path rest { acc with size := some v }
    else if strStartsWith param "data_generator=" then
      match writeDataGeneratorParam path (paramValue param) acc with
      | .error e => .error e
      | .ok acc2 => writeParams path rest acc2
    else .error (.playbook "Unknown parameter")

/-- Write.from_playbook_line. -/
def writeFromTokens (toks : List String) : Except Err Op :=
  match toks.drop 1 with
  | p0 :: rest =>
    if (p0 :: rest).length < 2 then .error (.playbook "Not enough arguments")
    else
      match writeParams (pathOfString p0) rest {} with
      | .error e => .error e
      | .ok args =>
        match args.size with
        | none => .error (.value "missing argument size")
        | some sz =>
            mkWrite (pathOfString p0) (sz : Int) (args.chunked.getD false)
              ((args.chunkSize.getD 512 : Nat) : Int) (args.dg.getD .random)
  | [] => .error (.playbook "Not enough arguments")

/-- Sleep.from_playbook_line: everything after the command token is joined
and parsed as a duration; parse failures become PlaybookErrors. -/
def sleepFromTokens (toks : List String) : Except Err Op :=
  if toks.length < 2 then .error (.playbook "Invalid playbook line")
  else
    match parseDurationString (String.join (toks.drop 1)) with
    | .error _ => .error (.playbook "duration parameter is not valid.")
    | .ok v => .ok (.sleep (v : Int))

/-- Calendar time as stored by datetime.datetime (no timezone, as used by
the Time operation). -/
structure PyDateTime where
  year : Nat
  month : Nat
  day : Nat
  hour : Nat
  minute : Nat
  second : Nat
  microsecond : Nat
  deriving Repr, DecidableEq

/-- Zero-padded decimal rendering used by datetime.isoformat. -/
def padNum (w n : Nat) : String :=
  let s := toString n
  String.mk (List.replicate (w - s.length) '0') ++ s

/-- datetime.isoformat for naive datetimes: date, `T`, time, and the
microsecond part exactly when it is nonzero. -/
def isoFormat (dt : PyDateTime) : String :=
  padNum 4 dt.year ++ "-" ++ padNum 2 dt.month ++ "-" ++ padNum 2 dt.day
    ++ "T" ++ padNum 2 dt.hour ++ ":" ++ padNum 2 dt.minute ++ ":"
    ++ padNum 2 dt.second
    ++ (if dt.microsecond = 0 then "" else "." ++ padNum 6 dt.microsecond)

/-- datetime.fromisoformat, modelled for the string shapes that
datetime.isoformat emits (date, optional `T`-separated time, optional
microseconds); malformed strings and out-of-range fields raise a
ValueError. -/
def fromIsoFormat (s : String) : Except Err PyDateTime :=
  match s.toList with
  | y1 :: y2 :: y3 :: y4 :: '-' :: m1 :: m2 :: '-' :: d1 :: d2 :: rest =>
    if ([y1, y2, y3, y4, m1, m2, d1, d2].all Char.isDigit) then
      let year := digitsToNat [y1, y2, y3, y4]
      let month := digitsToNat [m1, m2]
      let day := digitsToNat [d1, d2]
      if 1 ≤ month ∧ month ≤ 12 ∧ 1 ≤ day ∧ day ≤ 31 then
        match rest with
        | [] => .ok ⟨year, month, day, 0, 0, 0, 0⟩
        | 'T' :: h1 :: h2 :: ':' :: i1 :: i2 :: ':' :: s1 :: s2 :: rest2 =>
          if ([h1, h2, i1, i2, s1, s2].all Char.isDigit) then
            let hour := digitsToNat [h1, h2]
            let minute := digitsToNat [i1, i2]
            let second := digitsToNat [s1, s2]
            if hour ≤ 23 ∧ minute ≤ 59 ∧ second ≤ 59 then
              match rest2 with
              | [] => .ok ⟨year, month, day, hour, minute, second, 0⟩
              | '.' :: us =>
                if us.length = 6 ∧ us.all Char.isDigit then
                  .ok ⟨year, month, day, hour, minute, second, digitsToNat us⟩
                else .error (.value "Invalid isoformat string")
              | _ => .error (.value "Invalid isoformat string")
            else .error (.value "time field out of range")
          else .error (.value "Invalid isoformat string")
        | _ => .error (.value "Invalid isoformat string")
      else .error (.value "date field out of range")
    else .error (.value "Invalid isoformat string")
  | _ => .error (.value "Invalid isoformat string")

/-- Time.from_playbook_line: the second token is parsed with
datetime.fromisoformat (a missing token is an IndexError; the except clause
only catches PlaybookError, so the ValueError of a bad string
propagates), and the operation stores the isoformat rendering. -/
def timeFromTokens (toks : List String) : Except Err Op :=
  match toks.get? 1 with
  | none => .error (.value "list index out of range")
  | some ts =>
    match fromIsoFormat ts with
    | .error e => .error e
    | .ok dt => .ok (.time (isoFormat dt))

/-- Registry built by Operation.__init_subclass__ as returned by
get_operations_map: command token to parser (the filewriteoperation base
class entry is removed there and never had a parser of its own). -/
def operationsMap : List (String × (List String → Except Err Op)) :=
  [("cp", copyFromTokens), ("mkdir", mkdirFromTokens), ("mv", moveFromTokens),
    ("rm", removeFromTokens), ("shrink", shrinkFromTokens),
    ("extend", extendFromTokens), ("write", writeFromTokens),
    ("sleep", sleepFromTokens), ("time", timeFromTokens)]

/-- Command token of an operation (the class-level playbook_command). -/
def playbookCommand : Op → String
  | .copy _ _ => "cp"
  | .move _ _ => "mv"
  | .remove _ => "rm"
  | .mkdir _ => "mkdir"
  | .shrink _ _ => "shrink"
  | .write _ _ _ _ _ => "write"
  | .extend _ _ _ _ _ => "extend"
  | .sleep _ => "sleep"
  | .time _ => "time"

/-- PlaybookModel._parse_playbook_line on an already tokenized line: look
the first token up in the registry (an unknown one is a PlaybookError) and
run the parser. -/
def parsePlaybookLineTokens (toks : List String) : Except Err Op :=
  match toks with
  | [] => .error (.value "list index out of range")
  | cmd :: _ =>
    match (operationsMap.lookup cmd) with
    | none => .error (.playbook "Invalid playbook operation")
    | some p => p toks

/-- Loop body condition of PlaybookModel._parse_playbook: after stripping, a
line is skipped when it is empty or a full-line comment. -/
def skipsLine (line : String) : Bool :=
  strTrim line = "" ∨ (strStartsWith (strTrim line) "#")

/-- Line loop of PlaybookModel._parse_playbook: accumulate the parsed
operations; any exception raised for a line aborts the whole parse with a
PlaybookError. -/
def parsePlaybookLines : List String → Except Err (List Op)
  | [] => .ok []
  | line :: rest =>
    if skipsLine line then parsePlaybookLines rest
    else
      match parsePlaybookLineTokens (splitWs (strTrim line)) with
      | .error _ => .error (.playbook "invalid playbook line")
      | .ok op =>
        match parsePlaybookLines rest with
        | .error e => .error e
        | .ok ops => .ok (op :: ops)

/-- PlaybookModel._parse_playbook: parse every effective line, then reject a
playbook whose operation list came out empty. -/
def parsePlaybook (lines : List String) : Except Err (List Op) :=
  match parsePlaybookLines lines with
  | .error e => .error e
  | .ok ops =>
    if ops.length = 0 then
      .error (.playbook "No operations defined in playbook")
    else .ok ops

/-- Maximal byte count accepted by random.randbytes, used as the chunk size
of unchunked writes (operations._MAX_CHUNK_SIZE). -/
def maxChunkSize : Nat := 2 ^ 28 - 1

/-- Write-call sizes issued by the loop of
FileWriteOperation._write_to_file: while bytes remain, one call of
chunk-size bytes (or of the remainder when less is left) is issued. The
loop needs a positive chunk size to terminate, which both call sites
guarantee through the constructor checks. -/
def writeCalls (chunkSize : Nat) (hc : 0 < chunkSize) : Nat → List Nat
  | remaining =>
    if h : remaining = 0 then []
    else
      let step := if chunkSize ≤ remaining then chunkSize else remaining
      step :: writeCalls chunkSize hc (remaining - step)
  termination_by remaining => remaining
  decreasing_by
    split <;> omega

/-- Chunk size chosen by Write.execute and Extend.execute: the configured
one when chunked, the randbytes maximum otherwise. -/
def executeChunkSize (chunked : Bool) (chunkSize : Nat) : Nat :=
  if chunked then chunkSize else maxChunkSize

/-- Result of Shrink.execute, observed as the size of the file afterwards:
a missing path or a directory raises SimulationError, as does a shrink size
exceeding the file size; otherwise the file is truncated to its old size
minus the shrink size. -/
def shrinkExecute (pathExists isDir : Bool) (fileSize : Int)
    (shrinkSize : Int) : Except Err Int :=
  if ¬ pathExists then .error (.simulation "File does not exist.")
  else if isDir then
    .error (.simulation "unsupported operation for directories")
  else
    let newFileSize := fileSize - shrinkSize
    if newFileSize < 0 then
      .error (.simulation "shrink_size is greater than original file size")
    else .ok newFileSize

/-- Threshold configuration of the KAD model (write_limit and delete_limit,
each with a start and a stop ratio). -/
structure KadLimits where
  writeStart : ℚ
  writeStop : ℚ
  deleteStop : ℚ
  deleteStart : ℚ
  deriving Repr, DecidableEq

/-- Conjunction of the checks of KADModel._assert_valid_write_limits,
_assert_valid_delete_limits and _assert_valid_write_delete_limits: all four
thresholds lie in the unit interval, each limit is ordered, the delete stop
lies strictly above the write stop, and the write start strictly below the
delete start. -/
def ValidKadLimits (c : KadLimits) : Prop :=
  0 ≤ c.writeStart ∧ c.writeStart ≤ 1 ∧ 0 ≤ c.writeStop ∧ c.writeStop ≤ 1 ∧
    c.writeStart ≤ c.writeStop ∧ 0 ≤ c.deleteStart ∧ c.deleteStart ≤ 1 ∧
    0 ≤ c.deleteStop ∧ c.deleteStop ≤ 1 ∧ c.deleteStop ≤ c.deleteStart ∧
    c.writeStop < c.deleteStop ∧ c.writeStart < c.deleteStart

instance (c : KadLimits) : Decidable (ValidKadLimits c) := by
  unfold ValidKadLimits; infer_instance

/-- Hysteresis states of usagemodels/kad.py. -/
inductive ModelState where
  | preventEmptyDisk
  | regular
  | preventFilledDisk
  deriving Repr, DecidableEq

/-- KADModel._update_model_state: usage below the write start forces
PREVENT_EMPTY_DISK, usage above the delete start PREVENT_FILLED_DISK, and a
final separate check pulls any usage inside [write stop, delete stop] back
to REGULAR; otherwise the previous state is retained. -/
def updateModelState (c : KadLimits) (mode : ModelState) (u : ℚ) : ModelState :=
  let m1 :=
    if u < c.writeStart then ModelState.preventEmptyDisk
    else if c.deleteStart < u then ModelState.preventFilledDisk
    else mode
  if c.writeStop ≤ u ∧ u ≤ c.deleteStop then ModelState.regular else m1

/-- Operation names the KAD model can emit. -/
inductive KadOpName where
  | write
  | rm
  | extend
  | shrink
  deriving Repr, DecidableEq

/-- Candidate list of the regular branch of KADModel.__next__: a full disk
(free space below 512) restricts to remove and shrink, an empty filesystem
forces write, otherwise all four operations are available. -/
def kadRegularCandidates (fullDisk isEmpty : Bool) : List KadOpName :=
  if fullDisk then [.rm, .shrink]
  else if isEmpty then [.write]
  else [.write, .rm, .extend, .shrink]

/-- Observation a KAD step makes of the live filesystem, together with the
index the weighted random draw resolves to. -/
structure KadObs where
  u : ℚ
  fullDisk : Bool
  isEmpty : Bool
  choiceIdx : Nat

/-- One iteration of KADModel.__next__ after the step-count check: update
the hysteresis state from the observed usage, then either emit the forced
operation or draw from the narrowed candidate list. -/
def kadStep (c : KadLimits) (mode : ModelState) (o : KadObs) :
    ModelState × KadOpName :=
  let m := updateModelState c mode o.u
  match m with
  | .preventEmptyDisk => (m, .write)
  | .preventFilledDisk => (m, .rm)
  | .regular =>
    let cands := kadRegularCandidates o.fullDisk o.isEmpty
    (m, cands.getD (o.choiceIdx % cands.length) .write)

/-- Operation names a run of the KAD model emits for a sequence of
per-step observations. -/
def kadOps (c : KadLimits) : ModelState → List KadObs → List KadOpName
  | _, [] => []
  | m, o :: rest =>
    let s := kadStep c m o
    s.2 :: kadOps c s.1 rest

/-- Hysteresis state the KAD model holds after consuming a list of
observations (the fold of kadStep over the trace). -/
def kadModeAfter (c : KadLimits) (m : ModelState) (obs : List KadObs) :
    ModelState :=
  obs.foldl (fun m o => (kadStep c m o).1) m

/-- KADModel._generate_operation_size: the raw size is chunk size times the
sampled size factor times the sampled random multiplier; a raw size above
the upper bound is clamped down to a chunk multiple, one below the lower
bound is rounded up to the next chunk multiple. -/
def generateOperationSize (chunkSize factor rand minSize maxSize : Nat) : Nat :=
  let size := chunkSize * factor * rand
  if size > maxSize then maxSize / chunkSize * chunkSize
  else if size < minSize then (minSize / chunkSize + 1) * chunkSize
  else size

/-- File types of filesystems.FileType. -/
inductive FsFileType where
  | regular
  | directory
  deriving Repr, DecidableEq

/-- filesystems.File: an immutable (type, path) value. -/
structure VFile where
  type : FsFileType
  path : PyPath
  deriving Repr, DecidableEq

/-- Query surface of the SimulationVirtualFileSystem as used by the
probabilistic model: the combined active file list, per-path sizes, free
space, and the recursive file listing below a directory. -/
structure ProbVfs where
  files : List VFile
  sizeOf : PyPath → Nat
  freeSpace : Int
  filesBelow : PyPath → List PyPath

/-- SimulationVirtualFileSystem.get_random_file with no filter: an empty
filesystem raises SimulationError, otherwise a uniformly drawn entry
(modelled by the oracle index) is returned. -/
def getRandomFileAny (vfs : ProbVfs) (idx : Nat) : Except Err VFile :=
  if vfs.files.length = 0 then
    .error (.simulation "there are no files or directories on this file system.")
  else .ok (vfs.files.getD (idx % vfs.files.length) ⟨.regular, ⟨true, []⟩⟩)

/-- SimulationVirtualFileSystem.get_random_file with a file type and an
exclusion set: no file of the type at all raises SimulationError; an empty
list after exclusion returns nothing. -/
def getRandomFileTyped (vfs : ProbVfs) (t : FsFileType) (exclude : List VFile)
    (idx : Nat) : Except Err (Option VFile) :=
  let typed := vfs.files.filter (fun f => f.type = t)
  if typed.length = 0 then
    .error (.simulation "there are no files of the requested type.")
  else
    let remaining := typed.filter (fun f => ¬ f ∈ exclude)
    if remaining.length = 0 then .ok none
    else .ok (some (remaining.getD (idx % remaining.length) ⟨.regular, ⟨true, []⟩⟩))

/-- ProbabilisticModel._random_remove: pick any active file and put it
through the registry parser as a remove line. -/
def randomRemove (vfs : ProbVfs) (idx : Nat) : Except Err Op :=
  match getRandomFileAny vfs idx with
  | .error e => .error e
  | .ok f => parsePlaybookLineTokens ["rm", pathToString f.path]

/-- Random outcomes one call of ProbabilisticModel._random_copy_or_move can
consume: the source draw, the draw used by a substituted remove, the
use_existing_path coin, the destination draw, and the outcome of
get_nonexistent_path (supplied by the environment; the generator itself is
modelled separately for the path-generator claim). -/
structure CpMvOracle where
  srcIdx : Nat
  removeIdx : Nat
  useExisting : Bool
  dstIdx : Nat
  freshPath : PyPath

/-- Total size a copy needs: the file size for a regular source, the sum of
the sizes of all files below for a directory source. -/
def requiredSpace (vfs : ProbVfs) (src : VFile) : Nat :=
  match src.type with
  | .regular => vfs.sizeOf src.path
  | .directory => ((vfs.filesBelow src.path).map vfs.sizeOf).sum

/-- Destination-selection part of ProbabilisticModel._random_copy_or_move
(the code after the free-space guard). -/
def cpMvDestination (vfs : ProbVfs) (src : VFile) (o : CpMvOracle) :
    Except Err PyPath :=
  if o.useExisting then
    if src.type = .regular then
      match getRandomFileTyped vfs .regular [src] o.dstIdx with
      | .error e => .error e
      | .ok (some dst) => .ok dst.path
      | .ok none => .ok o.freshPath
    else
      match getRandomFileTyped vfs .directory [src] o.dstIdx with
      | .error e => .error e
      | .ok (some dst) => .ok dst.path
      | .ok none => .ok o.freshPath
  else .ok o.freshPath

/-- ProbabilisticModel._random_copy_or_move: draw a source; for a copy whose
source does not fit into the free space, fall back to _random_remove;
otherwise choose a destination and put the line through the registry
parser. -/
def randomCopyOrMove (vfs : ProbVfs) (opName : String) (o : CpMvOracle) :
    Except Err Op :=
  match getRandomFileAny vfs o.srcIdx with
  | .error e => .error e
  | .ok src =>
    if opName = "cp" ∧ vfs.freeSpace < (requiredSpace vfs src : Int) then
      randomRemove vfs o.removeIdx
    else
      match cpMvDestination vfs src o with
      | .error e => .error e
      | .ok dst =>
        parsePlaybookLineTokens [opName, pathToString src.path, pathToString dst]

/-- Candidate command list of ProbabilisticModel.__next__, narrowed by the
live filesystem state. -/
def probCandidates (isEmpty : Bool) (freeSpace : Int) (regularCount : Nat) :
    List String :=
  if isEmpty then ["write", "mkdir"]
  else if freeSpace ≤ 0 then ["cp", "mv", "rm", "write"]
  else ["write", "mkdir", "cp", "mv", "rm"]
    ++ (if regularCount > 0 then ["extend"] else [])

/-- Candidate command set exactly as the spec sentence describes it: empty
filesystem gives mkdir and write only; no free space gives cp, mv, rm and
write only; otherwise mkdir, write, cp, mv and rm, plus extend exactly when
at least one regular file exists. -/
def specProbCandidates (isEmpty : Bool) (freeSpace : Int) (regularCount : Nat) :
    List String :=
  if isEmpty then ["mkdir", "write"]
  else if freeSpace ≤ 0 then ["cp", "mv", "rm", "write"]
  else ["mkdir", "write", "cp", "mv", "rm"]
    ++ (if regularCount > 0 then ["extend"] else [])

/-- Path.is_relative_to in component form: the skip path is an
ancestor-or-self of p exactly when its components lead p's. -/
def underPath (skip p : List String) : Bool :=
  skip.isPrefixOf p

/-- SimulationVirtualFileSystem._skip_relative_paths: directories inside the
skip subtree (Path.is_relative_to, i.e. the skip path is a component-wise
prefix) are dropped. -/
def skipRelativePaths (dirs : List (List String)) (skip : List String) :
    List (List String) :=
  dirs.filter (fun d => ! underPath skip d)

/-- SimulationVirtualFileSystem._get_random_directory: filter the active
directories against the skip subtree, fall back to the root when none is
left, otherwise pick one (modelled by the oracle index). -/
def getRandomDirectory (dirs : List (List String)) (skip : Option (List String))
    (idx : Nat) : List String :=
  let ds := match skip with
    | some s => skipRelativePaths dirs s
    | none => dirs
  if ds.length = 0 then [] else ds.getD (idx % ds.length) []

/-- Loop body of SimulationVirtualFileSystem.get_nonexistent_path: join a
random directory with a random name and accept the result when no such path
exists yet. -/
def nonexistentPathAttempt (pathExists : List String → Bool)
    (dirs : List (List String)) (skip : Option (List String)) (idx : Nat)
    (name : String) : Option (List String) :=
  let p := getRandomDirectory dirs skip idx ++ [name]
  if pathExists p then none else some p

/-- SimulationVirtualFileSystem.get_nonexistent_path: repeat the attempt for
each random draw until one path is fresh (the source caps the loop at
100000 tries and raises; exhausting the supplied draws models that
failure). -/
def getNonexistentPath (pathExists : List String → Bool)
    (dirs : List (List String)) (skip : Option (List String)) :
    List (Nat × String) → Option (List String)
  | [] => none
  | (idx, name) :: rest =>
    match nonexistentPathAttempt pathExists dirs skip idx name with
    | some p => some p
    | none => getNonexistentPath pathExists dirs skip rest

/-- DataGenerator.generate for the RandomDataGenerator: a negative size is
rejected before anything is produced, otherwise random.randbytes returns
that many bytes of the process-wide stream. -/
def randomGenerate (stream : Nat → UInt8) (size : Int) :
    Except Err (List UInt8) :=
  if size < 0 then
    .error (.simulation "Number of bytes to generate must not be negative.")
  else .ok ((List.range size.toNat).map stream)

/-- Mutable state of a PatternGenerator instance: the current chunk, the
cursor into it, and the chunk counter. -/
structure PatternState where
  chunk : String
  chunkIndex : Nat
  patternCounter : Nat
  deriving Repr, DecidableEq

/-- Python string slice s[a:b] with nonnegative clamped indices. -/
def stringSlice (s : String) (a b : Nat) : String :=
  String.mk ((s.toList.take b).drop a)

/-- While loop of PatternGenerator._generate: whenever the cursor has left
the current chunk, refill it from _generate_pattern (passed in as `refill`,
a function of the chunk counter, which the refill increments) and reset the
cursor; then append the slice of the chunk the loop body takes and advance
the cursor. The fuel bounds the number of iterations. -/
def patternGenerateLoop (refill : Nat → String) (fuel : Nat) (size : Nat)
    (data : String) (st : PatternState) : Option (String × PatternState) :=
  if data.length < size then
    match fuel with
    | 0 => none
    | fuel + 1 =>
      let st1 :=
        if st.chunk.length ≤ st.chunkIndex then
          PatternState.mk (refill st.patternCounter) 0 (st.patternCounter + 1)
        else st
      let bytesNeeded := size - data.length
      let data2 := data ++ stringSlice st1.chunk st1.chunkIndex bytesNeeded
      patternGenerateLoop refill fuel size data2
        { st1 with chunkIndex := st1.chunkIndex + bytesNeeded }
  else some (data, st)

/-- DataGenerator.generate for the PatternGenerator: the negative-size guard
followed by the _generate loop starting from the empty accumulator. -/
def patternGenerate (refill : Nat → String) (fuel : Nat) (st : PatternState)
    (size : Int) : Except Err (Option (String × PatternState)) :=
  if size < 0 then
    .error (.simulation "Number of bytes to generate must not be negative.")
  else .ok (patternGenerateLoop refill fuel size.toNat "" st)

/-! ## Theorems -/

theorem maxChunkSize_pos : 0 < maxChunkSize := by norm_num [maxChunkSize]

theorem writeCalls_sum (c : Nat) (hc : 0 < c) (r : Nat) :
    (writeCalls c hc r).sum = r := by
  induction r using Nat.strong_induction_on with
  | _ r ih =>
    rw [writeCalls]
    split
    · simp_all
    · rename_i h
      dsimp only
      simp only [List.sum_cons]
      rw [ih _ (by split <;> omega)]
      split <;> omega

theorem writeCalls_le (c : Nat) (hc : 0 < c) (r : Nat) :
    ∀ x ∈ writeCalls c hc r, x ≤ c := by
  induction r using Nat.strong_induction_on with
  | _ r ih =>
    rw [writeCalls]
    split
    · simp
    · rename_i h
      dsimp only
      intro x hx
      rcases List.mem_cons.mp hx with hx | hx
      · subst hx; split <;> omega
      · exact ih _ (by split <;> omega) x hx

theorem writeCalls_length (c : Nat) (hc : 0 < c) (r : Nat) (hr : 0 < r) :
    (writeCalls c hc r).length = (r + c - 1) / c := by
  induction r using Nat.strong_induction_on with
  | _ r ih =>
    rw [writeCalls]
    split
    · omega
    · rename_i h
      dsimp only
      by_cases hcr : c ≤ r
      · rw [if_pos hcr]
        simp only [List.length_cons]
        by_cases h0 : r - c = 0
        · rw [h0, writeCalls]
          simp only [List.length_nil, reduceDIte]
          have hrc : r = c := by omega
          subst hrc
          have he : r + r - 1 = (r - 1) + r := by omega
          rw [he, Nat.add_div_right _ hc, Nat.div_eq_of_lt (by omega)]
        · rw [ih _ (by omega) (by omega)]
          have he : r + c - 1 = (r - c + c - 1) + c := by omega
          rw [he, Nat.add_div_right _ hc]
      · rw [if_neg hcr]
        simp only [Nat.sub_self]
        rw [writeCalls]
        simp only [List.length_cons, List.length_nil, reduceDIte]
        have he : r + c - 1 = (r - 1) + c := by omega
        rw [he, Nat.add_div_right _ hc, Nat.div_eq_of_lt (by omega)]

/-- C4: with chunking enabled, Write issues exactly ceil(N over C) write
calls, each of at most C bytes, summing to exactly N; with chunking
disabled, the chunk size is the randbytes maximum, so every call is bounded
by 2 to the 28 minus 1 bytes. -/
theorem write_chunked_call_structure (N C : Nat) (hN : 0 < N) (hC : 0 < C) :
    executeChunkSize true C = C
    ∧ (writeCalls C hC N).length = (N + C - 1) / C
    ∧ (∀ x ∈ writeCalls C hC N, x ≤ C)
    ∧ (writeCalls C hC N).sum = N
    ∧ executeChunkSize false C = maxChunkSize
    ∧ ∀ x ∈ writeCalls maxChunkSize maxChunkSize_pos N, x ≤ maxChunkSize :=
  ⟨rfl, writeCalls_length C hC N hN, writeCalls_le C hC N,
    writeCalls_sum C hC N, rfl, writeCalls_le maxChunkSize maxChunkSize_pos N⟩

/-- Concrete instance of the chunked-write call structure: writing 5 bytes
with chunk size 2 issues three calls of sizes 2, 2 and 1. -/
theorem write_chunked_call_structure_witness :
    executeChunkSize true 2 = 2
    ∧ (writeCalls 2 (by norm_num) 5).length = (5 + 2 - 1) / 2
    ∧ (∀ x ∈ writeCalls 2 (by norm_num) 5, x ≤ 2)
    ∧ (writeCalls 2 (by norm_num) 5).sum = 5
    ∧ executeChunkSize false 2 = maxChunkSize
    ∧ ∀ x ∈ writeCalls maxChunkSize maxChunkSize_pos 5, x ≤ maxChunkSize :=
  write_chunked_call_structure 5 2 (by norm_num) (by norm_num)

/-- C1 (failing instance): the Extend to-playbook-line serializer and
from-playbook-line parser disagree, so the round trip of the claim fails
for an Extend operation configured with a pattern data generator. The
operation constructs fine, but its serialized token list carries a
`data_generator=` parameter, which Extend.from_playbook_line rejects as an
unknown parameter with a PlaybookError, so
from_playbook_line(op.as_playbook_line()) raises instead of reproducing
op.as_dict(). -/
theorem extend_pattern_roundtrip_fails :
    mkExtend ⟨true, ["a"]⟩ 1024 false 512
        (.patternGen "A" ⟨false, []⟩ 512 true "pattern(512,%c%s,A)")
      = .ok (Op.extend ⟨true, ["a"]⟩ 1024 false 512
        (.patternGen "A" ⟨false, []⟩ 512 true "pattern(512,%c%s,A)"))
    ∧ extendFromTokens (asPlaybookTokens (Op.extend ⟨true, ["a"]⟩ 1024 false 512
        (.patternGen "A" ⟨false, []⟩ 512 true "pattern(512,%c%s,A)")))
      = .error (.playbook "Unknown parameter") :=
  ⟨rfl, rfl⟩

/-- C3 (counterexample): shrinking a file of size 5 by exactly 5 does not
raise the Simulation error the claim requires for n = S; the operation
constructs and executes fine and leaves a zero-byte file. -/
theorem shrink_at_full_size_succeeds :
    mkShrink ⟨true, ["sfile"]⟩ 5 = .ok (.shrink ⟨true, ["sfile"]⟩ 5)
    ∧ shrinkExecute true false 5 5 = .ok 0 :=
  ⟨rfl, rfl⟩

/-- C3 (amended): Shrink(path, n) on an existing regular file of size S
yields exactly S minus n whenever n is at most S; a SimulationError is
raised on execution only when n exceeds S, and n below 1 is rejected at
construction time with a ValueError. -/
theorem shrink_size_semantics (S n : Int) :
    (n < 1 → ∀ p, mkShrink p n = .error (.value "shrink_size has to be >= 1."))
    ∧ (n ≤ S → shrinkExecute true false S n = .ok (S - n))
    ∧ (S < n → shrinkExecute true false S n
        = .error (.simulation "shrink_size is greater than original file size")) := by
  refine ⟨fun h p => ?_, fun h => ?_, fun h => ?_⟩
  · simp [mkShrink, h]
  · simp [shrinkExecute]
    omega
  · simp [shrinkExecute]
    omega

/-- Concrete instances of the amended shrink semantics: a file of size 5
shrunk by 2 ends with 3 bytes, shrinking it by 7 raises, and a shrink size
of 0 is rejected at construction. -/
theorem shrink_size_semantics_witness :
    shrinkExecute true false 5 2 = .ok 3
    ∧ shrinkExecute true false 5 7
        = .error (.simulation "shrink_size is greater than original file size")
    ∧ mkShrink ⟨true, ["sfile"]⟩ 0 = .error (.value "shrink_size has to be >= 1.") :=
  ⟨by simpa using (shrink_size_semantics 5 2).2.1 (by norm_num),
    (shrink_size_semantics 5 7).2.2 (by norm_num),
    (shrink_size_semantics 0 0).1 (by norm_num) _⟩

/-- C6 (counterexample): with chunk size 512, size factor 1, random
multiplier 1 and an upper bound of 100 (less than one chunk), the downward
clamp of _generate_operation_size returns 0, which is neither positive nor
at least one chunk size. -/
theorem kad_operation_size_zero :
    generateOperationSize 512 1 1 1 100 = 0
    ∧ ¬ 512 ≤ generateOperationSize 512 1 1 1 100 := by
  constructor
  · rfl
  · decide

/-- C6 (amended): provided the operand's upper bound M is at least one
chunk size and the sampled size factor and random multiplier are positive,
the size computed by _generate_operation_size with lower bound 1 is a
multiple of the chunk size, at least one chunk size, and at most M. -/
theorem kad_operation_size_bounds (c f r M : Nat) (hc : 0 < c) (hf : 0 < f)
    (hr : 0 < r) (hM : c ≤ M) :
    generateOperationSize c f r 1 M % c = 0
    ∧ c ≤ generateOperationSize c f r 1 M
    ∧ generateOperationSize c f r 1 M ≤ M := by
  have hsz : c ≤ c * f * r := by
    calc c = c * 1 * 1 := by ring
    _ ≤ c * f * r := by
      exact Nat.mul_le_mul (Nat.mul_le_mul_left c hf) hr
  unfold generateOperationSize
  dsimp only
  split_ifs with h1 h2
  · refine ⟨Nat.mul_mod_left _ _, ?_, Nat.div_mul_le_self M c⟩
    have hd : 1 ≤ M / c := (Nat.one_le_div_iff hc).mpr hM
    calc c = 1 * c := (one_mul c).symm
    _ ≤ M / c * c := Nat.mul_le_mul_right c hd
  · omega
  · refine ⟨?_, hsz, by omega⟩
    have he : c * f * r = f * r * c := by ring
    rw [he, Nat.mul_mod_left]

/-- Concrete instance of the amended operation-size bounds at chunk size
512, factor 1, multiplier 1 and upper bound 1024. -/
theorem kad_operation_size_bounds_witness :
    generateOperationSize 512 1 1 1 1024 % 512 = 0
    ∧ 512 ≤ generateOperationSize 512 1 1 1 1024
    ∧ generateOperationSize 512 1 1 1 1024 ≤ 1024 :=
  kad_operation_size_bounds 512 1 1 1024 (by norm_num) (by norm_num)
    (by norm_num) (by norm_num)

/-- C7: at every step of the probabilistic model, the candidate command
list built from the live filesystem state contains exactly the commands the
spec describes: mkdir and write on an empty filesystem; cp, mv, rm and
write when no free space is left; otherwise mkdir, write, cp, mv and rm,
with extend included exactly when at least one regular file exists. -/
theorem prob_candidates_match (e : Bool) (f : Int) (n : Nat) (cmd : String) :
    cmd ∈ probCandidates e f n ↔ cmd ∈ specProbCandidates e f n := by
  unfold probCandidates specProbCandidates
  cases e <;> by_cases hf : f ≤ 0 <;> by_cases hn : 0 < n <;>
    simp [hf, hn] <;> tauto

/-- C10: for both data generator kinds, a negative generate size raises a
SimulationError before any bytes are produced, and a zero size yields the
empty byte string, leaving the pattern generator's state untouched (for
every possible chunk producer and fuel). -/
theorem data_generator_degenerate_sizes (stream : Nat → UInt8)
    (refill : Nat → String) (fuel : Nat) (st : PatternState) (size : Int)
    (h : size < 0) :
    randomGenerate stream size
      = .error (.simulation "Number of bytes to generate must not be negative.")
    ∧ patternGenerate refill fuel st size
      = .error (.simulation "Number of bytes to generate must not be negative.")
    ∧ randomGenerate stream 0 = .ok []
    ∧ patternGenerate refill fuel st 0 = .ok (some ("", st)) := by
  refine ⟨?_, ?_, ?_, ?_⟩
  · simp [randomGenerate, h]
  · simp [patternGenerate, h]
  · simp [randomGenerate]
  · simp only [patternGenerate]
    rw [patternGenerateLoop.eq_def]
    simp

/-- Concrete instance of the degenerate-size behaviour at size minus one
with a constant byte stream, an empty chunk producer and zero fuel. -/
theorem data_generator_degenerate_sizes_witness :
    randomGenerate (fun _ => 0) (-1)
      = .error (.simulation "Number of bytes to generate must not be negative.")
    ∧ patternGenerate (fun _ => "") 0 ⟨"", 0, 0⟩ (-1)
      = .error (.simulation "Number of bytes to generate must not be negative.")
    ∧ randomGenerate (fun _ => 0) 0 = .ok []
    ∧ patternGenerate (fun _ => "") 0 ⟨"", 0, 0⟩ 0 = .ok (some ("", ⟨"", 0, 0⟩)) :=
  data_generator_degenerate_sizes (fun _ => 0) (fun _ => "") 0 ⟨"", 0, 0⟩ (-1)
    (by norm_num)

theorem updateModelState_enter (c : KadLimits) (h : ValidKadLimits c)
    (m : ModelState) (u : ℚ) (hu : u < c.writeStart) :
    updateModelState c m u = .preventEmptyDisk := by
  obtain ⟨h1, h2, h3, h4, h5, h6, h7, h8, h9, h10, h11, h12⟩ := h
  unfold updateModelState
  dsimp only
  have hn : ¬ (c.writeStop ≤ u ∧ u ≤ c.deleteStop) := by
    rintro ⟨a, b⟩; linarith
  rw [if_neg hn, if_pos hu]

theorem updateModelState_persist (c : KadLimits) (h : ValidKadLimits c)
    (u : ℚ) (hu : u < c.writeStop) :
    updateModelState c .preventEmptyDisk u = .preventEmptyDisk := by
  obtain ⟨h1, h2, h3, h4, h5, h6, h7, h8, h9, h10, h11, h12⟩ := h
  unfold updateModelState
  dsimp only
  have hn : ¬ (c.writeStop ≤ u ∧ u ≤ c.deleteStop) := by
    rintro ⟨a, b⟩; linarith
  rw [if_neg hn]
  have hd : ¬ c.deleteStart < u := by push_neg; linarith
  by_cases hw : u < c.writeStart
  · rw [if_pos hw]
  · rw [if_neg hw, if_neg hd]

theorem kadStep_forced (c : KadLimits) (m : ModelState) (o : KadObs)
    (hm : updateModelState c m o.u = .preventEmptyDisk) :
    kadStep c m o = (.preventEmptyDisk, .write) := by
  simp [kadStep, hm]

theorem kadOps_forced_suffix (c : KadLimits) (h : ValidKadLimits c)
    (mid : List KadObs) (hmid : ∀ x ∈ mid, x.u < c.writeStop) :
    kadOps c .preventEmptyDisk mid = List.replicate mid.length .write := by
  induction mid with
  | nil => rfl
  | cons o rest ih =>
    have hstep := kadStep_forced c .preventEmptyDisk o
      (updateModelState_persist c h o.u (hmid o (by simp)))
    simp only [kadOps, hstep, List.length_cons, List.replicate_succ]
    exact congrArg _ (ih fun x hx => hmid x (by simp [hx]))

theorem kadOps_append (c : KadLimits) (m : ModelState) (l1 l2 : List KadObs) :
    kadOps c m (l1 ++ l2)
      = kadOps c m l1 ++ kadOps c (kadModeAfter c m l1) l2 := by
  induction l1 generalizing m with
  | nil => simp [kadOps, kadModeAfter]
  | cons o rest ih =>
    simp only [List.cons_append, kadOps, kadModeAfter, List.foldl_cons,
      List.append_eq]
    rw [ih]
    rfl

theorem kadOps_length (c : KadLimits) (m : ModelState) (l : List KadObs) :
    (kadOps c m l).length = l.length := by
  induction l generalizing m with
  | nil => rfl
  | cons o rest ih => simp only [kadOps, List.length_cons, ih]

/-- C2: for every valid KAD configuration, whenever the usage ratio
observed at a step drops below the write start limit, that step and every
following step emit a write operation, and the forcing persists as long as
every observed usage stays below the write stop limit, even when it
fluctuates above the write start limit in between. -/
theorem kad_hysteresis_forced_write (c : KadLimits) (h : ValidKadLimits c)
    (m0 : ModelState) (pre mid : List KadObs) (o : KadObs)
    (ho : o.u < c.writeStart) (hmid : ∀ x ∈ mid, x.u < c.writeStop) :
    (kadOps c m0 (pre ++ o :: mid)).drop pre.length
      = List.replicate (mid.length + 1) KadOpName.write := by
  rw [kadOps_append, ← kadOps_length c m0 pre, List.drop_left]
  have hstep := kadStep_forced c (kadModeAfter c m0 pre) o
    (updateModelState_enter c h (kadModeAfter c m0 pre) o.u ho)
  simp only [kadOps, hstep, List.replicate_succ]
  exact congrArg _ (kadOps_forced_suffix c h mid hmid)

/-- Concrete instance of the hysteresis theorem: with limits 1/4, 1/2, 3/4
and 9/10, a usage of 1/8 triggers the forced write, and it persists at a
usage of 3/8 that is already back above the write start limit. -/
theorem kad_hysteresis_forced_write_witness :
    (kadOps ⟨1/4, 1/2, 3/4, 9/10⟩ ModelState.regular
        [⟨1/8, false, false, 0⟩, ⟨3/8, false, false, 0⟩]).drop 0
      = List.replicate 2 KadOpName.write :=
  kad_hysteresis_forced_write ⟨1/4, 1/2, 3/4, 9/10⟩
    (by norm_num [ValidKadLimits]) ModelState.regular [] [⟨3/8, false, false, 0⟩]
    ⟨1/8, false, false, 0⟩ (by norm_num)
    (fun x hx => by
      rcases List.mem_singleton.mp hx with rfl
      norm_num)

theorem randomRemove_command (vfs : ProbVfs) (i : Nat) (op : Op)
    (h : randomRemove vfs i = .ok op) : playbookCommand op = "rm" := by
  unfold randomRemove at h
  split at h
  · cases h
  · rename_i f heq
    have hl : parsePlaybookLineTokens ["rm", pathToString f.path]
        = .ok (Op.remove (normalizeSimulationPath (pathOfString
          (pathToString f.path)))) := rfl
    rw [hl] at h
    obtain rfl : Op.remove _ = op := by simpa using h
    rfl

/-- C5 (counterexample): on a filesystem holding one regular file of 10
bytes with only 5 bytes free, a step that chose the cp command returns a
remove operation instead of failing: the model does substitute an operation
of a different kind. -/
theorem cp_substituted_by_remove :
    randomCopyOrMove ⟨[⟨.regular, ⟨true, ["a"]⟩⟩], fun _ => 10, 5, fun _ => []⟩
        "cp" ⟨0, 0, false, 0, ⟨true, ["z"]⟩⟩ = .ok (Op.remove ⟨true, ["a"]⟩)
    ∧ playbookCommand (Op.remove ⟨true, ["a"]⟩) = "rm" :=
  ⟨rfl, rfl⟩

/-- C5 (amended): a copy-or-move step either yields an operation of the
chosen kind, or — exactly in the documented fallback where the chosen
command is cp and the free space is smaller than the selected source's
size — a remove operation; no other substitution happens, and a step that
cannot be materialized fails with the underlying error. -/
theorem copy_or_move_kind_or_remove_fallback (vfs : ProbVfs) (opName : String)
    (o : CpMvOracle) (hname : opName = "cp" ∨ opName = "mv") (op : Op)
    (hres : randomCopyOrMove vfs opName o = .ok op) :
    playbookCommand op = opName
    ∨ (opName = "cp" ∧ playbookCommand op = "rm"
        ∧ ∃ src, getRandomFileAny vfs o.srcIdx = .ok src
          ∧ vfs.freeSpace < (requiredSpace vfs src : Int)) := by
  unfold randomCopyOrMove at hres
  split at hres
  · cases hres
  · rename_i src hg
    split at hres
    · rename_i hcp
      exact Or.inr ⟨hcp.1, randomRemove_command vfs o.removeIdx op hres,
        src, hg, hcp.2⟩
    · rename_i hcp
      split at hres
      · cases hres
      · rename_i dst hd
        left
        rcases hname with rfl | rfl
        · have hl : parsePlaybookLineTokens
              ["cp", pathToString src.path, pathToString dst]
              = .ok (Op.copy
                (normalizeSimulationPath (pathOfString (pathToString src.path)))
                (normalizeSimulationPath (pathOfString (pathToString dst)))) := rfl
          rw [hl] at hres
          obtain rfl : Op.copy _ _ = op := by simpa using hres
          rfl
        · have hl : parsePlaybookLineTokens
              ["mv", pathToString src.path, pathToString dst]
              = .ok (Op.move
                (normalizeSimulationPath (pathOfString (pathToString src.path)))
                (normalizeSimulationPath (pathOfString (pathToString dst)))) := rfl
          rw [hl] at hres
          obtain rfl : Op.move _ _ = op := by simpa using hres
          rfl

/-- Concrete instance of the no-substitution theorem: a move step on a
filesystem with one directory and ample free space yields a move
operation. -/
theorem copy_or_move_kind_or_remove_fallback_witness :
    playbookCommand (Op.move ⟨true, ["d"]⟩ ⟨true, ["z"]⟩) = "mv"
    ∨ ("mv" = "cp"
        ∧ playbookCommand (Op.move ⟨true, ["d"]⟩ ⟨true, ["z"]⟩) = "rm"
        ∧ ∃ src, getRandomFileAny
            ⟨[⟨.directory, ⟨true, ["d"]⟩⟩], fun _ => 0, 100, fun _ => []⟩ 0
            = .ok src
          ∧ (100 : Int) < (requiredSpace
              ⟨[⟨.directory, ⟨true, ["d"]⟩⟩], fun _ => 0, 100, fun _ => []⟩
              src : Int)) :=
  copy_or_move_kind_or_remove_fallback
    ⟨[⟨.directory, ⟨true, ["d"]⟩⟩], fun _ => 0, 100, fun _ => []⟩ "mv"
    ⟨0, 0, false, 0, ⟨true, ["z"]⟩⟩ (Or.inr rfl)
    (Op.move ⟨true, ["d"]⟩ ⟨true, ["z"]⟩) rfl

theorem getRandomDirectory_not_under (dirs : List (List String))
    (skip : List String) (idx : Nat) (hne : skip ≠ []) :
    underPath skip (getRandomDirectory dirs (some skip) idx) = false := by
  unfold getRandomDirectory
  dsimp only
  split
  · cases skip with
    | nil => exact absurd rfl hne
    | cons s ss => rfl
  · rename_i hlen
    have hlt : idx % (skipRelativePaths dirs skip).length
        < (skipRelativePaths dirs skip).length := Nat.mod_lt _ (by omega)
    have hmem : (skipRelativePaths dirs skip).getD
        (idx % (skipRelativePaths dirs skip).length) []
        ∈ skipRelativePaths dirs skip := by
      rw [List.getD_eq_getElem _ _ hlt]
      exact List.getElem_mem hlt
    have hf := (List.mem_filter.mp hmem).2
    simpa using hf

/-- C8: the nonexistent-path generator, called with a skip directory that
exists in the filesystem and is not the root, never returns the skip path
itself or a path inside its subtree, whatever the random draws are. -/
theorem nonexistent_path_avoids_skip_subtree (pathExists : List String → Bool)
    (dirs : List (List String)) (skip : List String)
    (tries : List (Nat × String)) (p : List String)
    (hskip : pathExists skip = true) (hne : skip ≠ [])
    (hres : getNonexistentPath pathExists dirs (some skip) tries = some p) :
    underPath skip p = false := by
  induction tries with
  | nil => cases hres
  | cons t rest ih =>
    obtain ⟨idx, name⟩ := t
    unfold getNonexistentPath at hres
    split at hres
    · rename_i q hq
      injection hres with hres2
      subst hres2
      unfold nonexistentPathAttempt at hq
      dsimp only at hq
      split at hq
      · cases hq
      · rename_i hex
        obtain rfl : getRandomDirectory dirs (some skip) idx ++ [name] = q := by
          cases hq; rfl
        by_contra hcon
        have htrue : underPath skip
            (getRandomDirectory dirs (some skip) idx ++ [name]) = true := by
          simpa using hcon
        have hpre := List.isPrefixOf_iff_prefix.mp htrue
        rcases List.prefix_concat_iff.mp hpre with heq | hpre2
        · rw [← heq] at hex
          exact hex hskip
        · have hf := getRandomDirectory_not_under dirs skip idx hne
          rw [show underPath skip (getRandomDirectory dirs (some skip) idx)
              = true from List.isPrefixOf_iff_prefix.mpr hpre2] at hf
          cases hf
    · exact ih hres

/-- Concrete instance of the skip-subtree avoidance: with directories s and
a, and s as the skip directory, the generated path lands under a. -/
theorem nonexistent_path_avoids_skip_subtree_witness :
    underPath ["s"] ["a", "n"] = false :=
  nonexistent_path_avoids_skip_subtree
    (fun q => ([["s"], ["a"]] : List (List String)).contains q)
    [["s"], ["a"]] ["s"] [(0, "n")] ["a", "n"] (by decide) (by decide) rfl

theorem parsePlaybookLines_length (lines : List String) (ops : List Op)
    (h : parsePlaybookLines lines = .ok ops) :
    ops.length = (lines.filter (fun l => ! skipsLine l)).length := by
  induction lines generalizing ops with
  | nil =>
    obtain rfl : ([] : List Op) = ops := by cases h; rfl
    rfl
  | cons l rest ih =>
    unfold parsePlaybookLines at h
    rw [List.filter_cons]
    split at h
    · rename_i hskip
      simp only [hskip, Bool.not_true, if_neg (by simp : ¬ false = true)]
      exact ih ops h
    · rename_i hskip
      split at h
      · cases h
      · rename_i op hop
        split at h
        · cases h
        · rename_i ops2 hops2
          obtain rfl : op :: ops2 = ops := by cases h; rfl
          have hb : (! skipsLine l) = true := by
            simp only [Bool.not_eq_true']
            exact Bool.not_eq_true _ |>.mp hskip
          simp only [if_pos hb, List.length_cons, ih ops2 hops2]

theorem parsePlaybookLines_error_of_line (lines : List String) (l : String)
    (hl : l ∈ lines) (hskip : skipsLine l = false) (e : Err)
    (hp : parsePlaybookLineTokens (splitWs (strTrim l)) = .error e) :
    ∃ e2, parsePlaybookLines lines = .error e2 := by
  induction lines with
  | nil => cases hl
  | cons x rest ih =>
    unfold parsePlaybookLines
    by_cases hx : skipsLine x = true
    · rw [if_pos hx]
      rcases List.mem_cons.mp hl with rfl | hmem
      · rw [hx] at hskip; cases hskip
      · exact ih hmem
    · rw [if_neg hx]
      cases hpt : parsePlaybookLineTokens (splitWs (strTrim x)) with
      | error e3 =>
        exact ⟨.playbook "invalid playbook line", by simp only [hpt]⟩
      | ok op =>
        rcases List.mem_cons.mp hl with rfl | hmem
        · rw [hp] at hpt; cases hpt
        · obtain ⟨e2, he2⟩ := ih hmem
          exact ⟨e2, by simp only [hpt, he2]⟩

/-- C9: a playbook in which any non-blank, non-comment line fails to parse
through the operation registry is rejected wholesale with a Playbook error,
as is a playbook whose effective lines are all blank or comments; in both
cases the model yields no operations at all. -/
theorem playbook_rejected_wholesale (lines : List String)
    (h : lines.filter (fun l => ! skipsLine l) = []
      ∨ ∃ l ∈ lines, skipsLine l = false
          ∧ ∃ e, parsePlaybookLineTokens (splitWs (strTrim l)) = .error e) :
    ∃ e, parsePlaybook lines = .error e := by
  unfold parsePlaybook
  rcases h with hemp | ⟨l, hmem, hskip, e, hp⟩
  · cases hres : parsePlaybookLines lines with
    | error e2 => exact ⟨e2, by simp only [hres]⟩
    | ok ops =>
      have hlen : ops.length = 0 := by
        rw [parsePlaybookLines_length lines ops hres, hemp]
        rfl
      exact ⟨.playbook "No operations defined in playbook",
        by simp [hres, hlen]⟩
  · obtain ⟨e2, he2⟩ := parsePlaybookLines_error_of_line lines l hmem hskip e hp
    exact ⟨e2, by simp only [he2]⟩

/-- Concrete instance of the wholesale rejection: a playbook with one
comment line and one malformed write line is rejected. -/
theorem playbook_rejected_wholesale_witness :
    ∃ e, parsePlaybook ["# only a comment", "write a"] = .error e :=
  playbook_rejected_wholesale ["# only a comment", "write a"]
    (Or.inr ⟨"write a", by decide, rfl,
      ⟨.playbook "Not enough arguments", rfl⟩⟩)

end Fsstratify
